import Mathlib

/-!
Verification of the virtualized multi-select/drag grid of the explorer
interface (the `Grid` component) and of the double-click open dispatcher
(`useViewItemDoubleClick`), as shallowly embedded Lean definitions.

Items of the rendered collection are identified by their grid index
(`explorer.items` is a dense array; `explorer.items?.[i]` exists exactly
when `0 ≤ i < items.length`, and item identities are unique within a
collection), so the Selection Set is a `Finset ℕ` of indices and the
active anchor an `Option ℕ`.
-/

namespace SpacedriveGrid

/-- Rectangle in viewport coordinates, as delivered by DOM geometry and by
the virtual grid. Pixel quantities are rationals. -/
structure Rect where
  top : ℚ
  bottom : ℚ
  left : ℚ
  right : ℚ
  deriving Repr, DecidableEq

/-- Static configuration of one grid view: visibility/behaviour flags of the
explorer context, the collection length, the column count, the layout
parameters, and which item elements are currently mounted in the DOM
(virtualization mounts only a window of rows). -/
structure GridCfg where
  selectable : Bool
  allowMultiSelect : Bool
  itemsLen : ℕ
  cc : ℕ
  mounted : ℕ → Bool
  quickPreviewOpen : Bool
  anyDialogOpen : Bool
  itemHeight : ℚ
  itemWidth : ℚ
  gapY : ℚ
  gapX : ℚ
  padY : ℚ
  padX : ℚ

/-- Modelled from the spec: grid geometry of the external virtualization
engine (`useGrid` of the virtual-grid library, not part of this repository)
is a pure function of `(index, columnCount, itemSize, gap, padding)`:
row-major placement with uniform item size and gaps. -/
def gridItemRect (cfg : GridCfg) (i : ℕ) : Rect :=
  let r : ℚ := (i / cfg.cc : ℕ)
  let c : ℚ := (i % cfg.cc : ℕ)
  { top := cfg.padY + r * (cfg.itemHeight + cfg.gapY)
    bottom := cfg.padY + r * (cfg.itemHeight + cfg.gapY) + cfg.itemHeight
    left := cfg.padX + c * (cfg.itemWidth + cfg.gapX)
    right := cfg.padX + c * (cfg.itemWidth + cfg.gapX) + cfg.itemWidth }

/-- A grid item as returned by `grid.getItem`: its index, row, column and
layout rectangle. The attached data (`explorer.items?.[index]`) exists for
every in-range index, so the item itself stands for its data. -/
structure GridItem where
  index : ℕ
  row : ℕ
  column : ℕ
  rect : Rect
  deriving Repr, DecidableEq

/-- `grid.getItem(index)`: defined exactly for `0 ≤ index < count` where
`count = explorer.items.length`; out-of-range lookups yield nothing
(`undefined` in the source). -/
def getItem (cfg : GridCfg) (i : ℤ) : Option GridItem :=
  if 0 ≤ i ∧ i < (cfg.itemsLen : ℤ) then
    some { index := i.toNat
           row := i.toNat / cfg.cc
           column := i.toNat % cfg.cc
           rect := gridItemRect cfg i.toNat }
  else none

/-- Mutable UI state of the grid view: the explorer Selection Set, the
active anchor ref, the Selecto widget's selected targets and its
"unselected shadow" set, the per-drag column trackers, and the transient
drag flags. -/
structure GridState where
  sel : Finset ℕ
  anchor : Option ℕ
  selectoTargets : List ℕ
  selectoUnselected : Finset ℕ
  firstCol : Option ℕ
  lastCol : Option ℕ
  isDragSelecting : Bool
  dragFromThumbnail : Bool
  deriving DecidableEq

/-- Initial state: nothing selected, no anchor, no drag bookkeeping. -/
def initState : GridState :=
  { sel := ∅
    anchor := none
    selectoTargets := []
    selectoUnselected := ∅
    firstCol := none
    lastCol := none
    isDragSelecting := false
    dragFromThumbnail := false }

/-- The four arrow keys handled by `getGridItemHandler`. -/
inductive ArrowKey where
  | up
  | down
  | left
  | right
  deriving Repr, DecidableEq

/-- `keyboardHandler(e, newIndex)` from the Grid component: bail out when
the view is not selectable or when no grid item exists at `newIndex`; in
single-select mode replace the selection; in multi-select mode require the
target's DOM element to be mounted, then either shift-extend (only when the
quick-preview modal is closed) or replace; finally update the active
anchor. Scrolling side effects carry no selection state and are omitted. -/
def keyboardHandler (cfg : GridCfg) (shift : Bool) (newIndex : ℤ)
    (s : GridState) : GridState :=
  if ¬ cfg.selectable then s
  else
    match getItem cfg newIndex with
    | none => s
    | some it =>
      if ¬ cfg.allowMultiSelect then
        { s with sel := {it.index}, anchor := some it.index }
      else if ¬ cfg.mounted it.index then s
      else if shift ∧ ¬ cfg.quickPreviewOpen then
        if it.index ∈ s.sel then { s with anchor := some it.index }
        else
          { s with
            sel := insert it.index s.sel
            selectoTargets := s.selectoTargets ++ [it.index]
            anchor := some it.index }
      else
        { s with
          sel := {it.index}
          selectoTargets := [it.index]
          selectoUnselected := ∅
          anchor := some it.index }

/-- `getGridItemHandler(key)`: resolve the active anchor back to its index
in the current collection (`findIndex`, which fails when the anchor is no
longer present), look it up in the grid, and offset by ±1 or ±columnCount
according to the key. -/
def getGridItemHandler (cfg : GridCfg) (s : GridState) (key : ArrowKey) :
    Option ℤ :=
  match s.anchor with
  | none => none
  | some a =>
    if a < cfg.itemsLen then
      match getItem cfg (a : ℤ) with
      | none => none
      | some gi =>
        some
          (match key with
          | .up => (gi.index : ℤ) - cfg.cc
          | .down => (gi.index : ℤ) + cfg.cc
          | .left => (gi.index : ℤ) - 1
          | .right => (gi.index : ℤ) + 1)
    else none

/-- The `explorerDown` shortcut: gated on selectability and on no dialog
being open; with an empty selection it bootstraps the selection to the item
at index 0 (requiring its element to be mounted); otherwise it defers to
`getGridItemHandler`/`keyboardHandler`. -/
def explorerDownShortcut (cfg : GridCfg) (shift : Bool) (s : GridState) :
    GridState :=
  if ¬ cfg.selectable ∨ cfg.anyDialogOpen then s
  else if s.sel = ∅ then
    match getItem cfg 0 with
    | none => s
    | some it =>
      if ¬ cfg.mounted it.index then s
      else
        { s with
          sel := {it.index}
          selectoTargets := [it.index]
          anchor := some it.index }
  else
    match getGridItemHandler cfg s .down with
    | none => s
    | some newIndex => keyboardHandler cfg shift newIndex s

/-- The `explorerUp` shortcut. -/
def explorerUpShortcut (cfg : GridCfg) (shift : Bool) (s : GridState) :
    GridState :=
  if ¬ cfg.selectable ∨ cfg.anyDialogOpen then s
  else
    match getGridItemHandler cfg s .up with
    | none => s
    | some newIndex => keyboardHandler cfg shift newIndex s

/-- The `explorerLeft` shortcut. -/
def explorerLeftShortcut (cfg : GridCfg) (shift : Bool) (s : GridState) :
    GridState :=
  if ¬ cfg.selectable ∨ cfg.anyDialogOpen then s
  else
    match getGridItemHandler cfg s .left with
    | none => s
    | some newIndex => keyboardHandler cfg shift newIndex s

/-- The `explorerRight` shortcut. -/
def explorerRightShortcut (cfg : GridCfg) (shift : Bool) (s : GridState) :
    GridState :=
  if ¬ cfg.selectable ∨ cfg.anyDialogOpen then s
  else
    match getGridItemHandler cfg s .right with
    | none => s
    | some newIndex => keyboardHandler cfg shift newIndex s

/-- The `explorerEscape` shortcut: do nothing unless the view is selectable
and the selection is non-empty; otherwise reset the Selection Set to empty
and clear the Selecto widget's selected targets. -/
def escapeShortcut (cfg : GridCfg) (s : GridState) : GridState :=
  if ¬ cfg.selectable ∨ s.sel = ∅ then s
  else { s with sel := ∅, selectoTargets := [] }

/-- The effect reacting to `explorer.selectedItems` becoming empty: clear
the unselected shadow set and the active anchor ref. -/
def effectClearOnEmpty (s : GridState) : GridState :=
  if s.sel = ∅ then { s with selectoUnselected := ∅, anchor := none }
  else s

/-- `GridItem onMouseDown`: ignore non-primary buttons and non-selectable
views; in single-select mode immediately replace the selection with the
pressed item, in multi-select mode prime the per-drag column trackers;
either way the pressed item becomes the active anchor. -/
def gridItemMouseDown (cfg : GridCfg) (button : ℕ) (index : ℕ)
    (s : GridState) : GridState :=
  if button ≠ 0 ∨ ¬ cfg.selectable then s
  else
    match getItem cfg (index : ℤ) with
    | none => s
    | some it =>
      if ¬ cfg.allowMultiSelect then
        { s with sel := {it.index}, anchor := some it.index }
      else
        { s with
          firstCol := some it.column
          lastCol := some it.column
          anchor := some it.index }

/-- A rendered selectable target element: the grid index it carries in its
`data-selectable-index` attribute, whether it is still attached to the
document, and its DOM bounding rectangle. -/
structure Element where
  index : ℕ
  mounted : Bool
  domRect : Rect
  deriving Repr, DecidableEq

/-- `getElementItem(element)`: read the element's index attribute and look
it up in the grid. -/
def getElementItem (cfg : GridCfg) (el : Element) : Option GridItem :=
  getItem cfg (el.index : ℤ)

/-- The reducer of `getActiveItem`: keep the item with the lesser index,
ignoring elements that resolve to no grid item. -/
def activeReduce (cfg : GridCfg) (least : Option GridItem) (cur : Element) :
    Option GridItem :=
  match getElementItem cfg cur with
  | none => least
  | some it =>
    match least with
    | none => some it
    | some l => if it.index < l.index then some it else some l

/-- `getActiveItem(elements)`: the source's reduce keeping the element item
with the least grid index (Finder-like anchor choice). -/
def getActiveItem (cfg : GridCfg) (els : List Element) : Option GridItem :=
  els.foldl (activeReduce cfg) none

/-- `handleDragEnd()`: drop the drag-selecting flag, forget the per-drag
column trackers and the drag-from-thumbnail flag, and recompute the active
anchor from the Selecto widget's currently selected (mounted) targets. -/
def handleDragEnd (cfg : GridCfg) (selectedTargets : List Element)
    (s : GridState) : GridState :=
  { s with
    isDragSelecting := false
    firstCol := none
    lastCol := none
    dragFromThumbnail := false
    anchor := (getActiveItem cfg selectedTargets).map (fun it => it.index) }

/-- JavaScript `Math.round`: round half towards positive infinity. -/
def mathRound (q : ℚ) : ℤ := ⌊q + 1 / 2⌋

/-- The unmounted row-slot count of the single-column drag branch:
`(dragHeight - grid.gap.y) / (grid.virtualItemSize.height + grid.gap.y)`,
ceiled when greater than 1 and rounded to nearest otherwise. -/
def itemsInDragCount (dragHeight gapY rowHeight : ℚ) : ℤ :=
  let q := (dragHeight - gapY) / (rowHeight + gapY)
  if 1 < q then ⌈q⌉ else mathRound q

/-- The item indices visited by the synthesis loop of the single-column
branch: for `i = 0 .. count-1` the loop computes
`index = down ? count - i : i + 1` and visits
`firstIndex + (down ? -index : index) * columnCount`. -/
def synthIndexList (count : ℕ) (down : Bool) (firstIndex : ℕ) (cc : ℕ) :
    List ℤ :=
  (List.range count).map fun (i : ℕ) =>
    let index : ℤ := if down then (count : ℤ) - (i : ℤ) else (i : ℤ) + 1
    (firstIndex : ℤ) + (if down then -index else index) * (cc : ℤ)

/-- The loop body applied to one synthesized item index: skip indices with
no item in the collection; with shift, toggle membership; without shift,
remove when outside the drag area, otherwise add; added synthesized items
are also recorded in the unselected-shadow list since they have no mounted
DOM target. -/
def applySynthItem (cfg : GridCfg) (shift inDragArea : Bool)
    (p : Finset ℕ × List ℕ) (itemIndex : ℤ) : Finset ℕ × List ℕ :=
  if 0 ≤ itemIndex ∧ itemIndex < (cfg.itemsLen : ℤ) then
    let i := itemIndex.toNat
    if shift then
      if i ∈ p.1 then (p.1.erase i, p.2)
      else (insert i p.1, if inDragArea then p.2 ++ [i] else p.2)
    else if ¬ inDragArea then (p.1.erase i, p.2)
    else (insert i p.1, if inDragArea then p.2 ++ [i] else p.2)
  else p

/-- Insertion of a value into a JavaScript `Set` modelled as an
insertion-ordered duplicate-free list. -/
def jsSetInsert (l : List ℕ) (x : ℕ) : List ℕ :=
  if x ∈ l then l else l ++ [x]

/-- Stable insertion (ascending by key) used to model the stable
`Array.prototype.sort` with a numeric-key comparator. -/
def insertByKey (key : GridItem → ℕ) (x : GridItem) :
    List GridItem → List GridItem
  | [] => [x]
  | y :: ys =>
    if key y < key x then y :: insertByKey key x ys else x :: y :: ys

/-- Stable sort by a numeric key. -/
def sortByKey (key : GridItem → ℕ) (l : List GridItem) : List GridItem :=
  l.foldr (insertByKey key) []

/-- One Selecto `onSelect` mousemove event: the per-tick added and removed
target elements, the drag rectangle, the pointer position, and the shift
modifier. -/
structure SelEvent where
  added : List Element
  removed : List Element
  rect : Rect
  px : ℚ
  py : ℚ
  shift : Bool

/-- Assemble the state at the end of a mousemove tick: new selection, the
unselected-shadow additions (merged only when any were recorded), and the
updated column trackers. -/
def finishTick (s : GridState) (p : Finset ℕ × List ℕ) (fc lc : Option ℕ) :
    GridState :=
  { s with
    sel := p.1
    selectoUnselected :=
      if p.2 ≠ [] then s.selectoUnselected ∪ p.2.toFinset
      else s.selectoUnselected
    firstCol := fc
    lastCol := lc }

/-- The `onSelect` mousemove branch of the Selecto widget, translated from
the source: apply the added/removed deltas to the Selection Set (removed
elements detached from the document go to the unselected-shadow list
instead), determine the drag direction from the pointer's position on the
drag rectangle, and then either record the touched column extremes (when
the tick spans several columns) or, within a single column, synthesize
membership changes for the unmounted row-slots between the drag start and
the nearest visible item by index arithmetic. -/
def mousemoveTick (cfg : GridCfg) (viewRectTop : ℚ) (ev : SelEvent)
    (s : GridState) : GridState :=
  let sel1 := ev.added.foldl
    (fun sel el =>
      match getElementItem cfg el with
      | some it => insert it.index sel
      | none => sel)
    s.sel
  let p0 := ev.removed.foldl
    (fun (p : Finset ℕ × List ℕ) el =>
      match getElementItem cfg el with
      | none => p
      | some it =>
        if el.mounted then (p.1.erase it.index, p.2)
        else (p.1, p.2 ++ [it.index]))
    (sel1, ([] : List ℕ))
  let dirRight : Bool := ! decide (ev.px = ev.rect.left)
  let dirDown : Bool := decide (ev.py = ev.rect.bottom)
  let dragStartY := if dirDown then ev.rect.top else ev.rect.bottom
  let elements := ev.added ++ ev.removed
  let items := elements.foldl
    (fun acc el =>
      match getElementItem cfg el with
      | some it => acc ++ [it]
      | none => acc)
    ([] : List GridItem)
  let columns := items.foldl (fun c it => jsSetInsert c it.column) []
  if 1 < columns.length then
    let sorted := sortByKey (fun it => it.column) items
    let firstItem := if dirRight then sorted.head? else sorted.getLast?
    let lastItem := if dirRight then sorted.getLast? else sorted.head?
    match firstItem, lastItem with
    | some fi, some li => finishTick s p0 (some fi.column) (some li.column)
    | _, _ => finishTick s p0 s.firstCol s.lastCol
  else
    match columns with
    | [column] =>
      let sorted := sortByKey (fun it => it.row) items
      let inDragArea : Bool :=
        match elements.head? with
        | none => false
        | some el =>
          if dirRight then decide (el.domRect.left ≤ ev.px)
          else decide (ev.px ≤ el.domRect.right)
      if some column ≠ s.lastCol ∨ (some column = s.lastCol ∧ ¬ inDragArea)
      then
        let firstItem := if dirDown then sorted.head? else sorted.getLast?
        let p1 :=
          match firstItem with
          | none => p0
          | some fi =>
            let itemTop := fi.rect.top + viewRectTop
            let itemBottom := fi.rect.bottom + viewRectTop
            if (if dirDown then dragStartY < itemTop
                else itemBottom < dragStartY) then
              let dragHeight :=
                |dragStartY - (if dirDown then itemTop else itemBottom)|
              let count :=
                (itemsInDragCount dragHeight cfg.gapY cfg.itemHeight).toNat
              (synthIndexList count dirDown fi.index cfg.cc).foldl
                (applySynthItem cfg ev.shift inDragArea) p0
            else p0
        if ¬ inDragArea ∧ s.firstCol = some column then
          finishTick s p1 none none
        else
          finishTick s p1
            (if s.firstCol = none then some column else s.firstCol)
            (some column)
      else finishTick s p0 s.firstCol s.lastCol
    | _ => finishTick s p0 s.firstCol s.lastCol

end SpacedriveGrid

namespace SpacedriveOpen

/-- An indexed file path row, with the fields the dispatcher reads. -/
structure FilePathRow where
  id : ℤ
  object_id : Option ℤ
  is_dir : Bool
  materialized_path : String
  name : String
  deriving Repr, DecidableEq

/-- A location row. -/
structure LocationRow where
  id : ℤ
  deriving Repr, DecidableEq

/-- A non-indexed (ephemeral) path row. -/
structure NonIndexedRow where
  path : String
  is_dir : Bool
  deriving Repr, DecidableEq

/-- A label row. -/
structure LabelRow where
  id : ℤ
  deriving Repr, DecidableEq

/-- The discriminated `ExplorerItem` variants consumed by the dispatcher. -/
inductive ItemVariant where
  | path (fp : FilePathRow)
  | object (file_paths : List FilePathRow)
  | location (loc : LocationRow)
  | nonIndexedPath (p : NonIndexedRow)
  | label (l : LabelRow)
  | spacedropPeer
  deriving Repr, DecidableEq

/-- Modelled from the spec: `uniqueId` (in `Explorer/util`, not among the
provided sources) derives a stable `ItemId` string from the item's kind
and key, unique within one rendered collection; items here therefore carry
their id directly and `uniqueId(a) === uniqueId(b)` is id equality. -/
structure SelItem where
  uid : ℕ
  variant : ItemVariant
  deriving Repr, DecidableEq

/-- `isPath(item)`: the item is a `Path` variant. -/
def isPath (it : SelItem) : Bool :=
  match it.variant with
  | .path _ => true
  | _ => false

/-- Whether the quick-preview guard of the dispatcher lets the clicked item
open a preview: not a location, and not a directory path. -/
def quickPreviewable (it : SelItem) : Bool :=
  match it.variant with
  | .location _ => false
  | .path fp => ! fp.is_dir
  | _ => true

/-- The bucket accumulator of the dispatcher's reduce. -/
structure Buckets where
  dirs : List FilePathRow
  paths : List FilePathRow
  locations : List LocationRow
  non_indexed : List NonIndexedRow
  deriving Repr, DecidableEq

/-- JavaScript `array.splice(start, 0, x)` as a pure insertion, including
the negative-start rule `actualStart = max(length + start, 0)`. -/
def spliceInsert (l : List α) (start : ℤ) (x : α) : List α :=
  let n : ℤ := l.length
  let s := (if start < 0 then max (n + start) 0 else min start n).toNat
  l.take s ++ [x] ++ l.drop s

/-- Insertion position used for each bucket:`0` for the clicked item and
`-1` for every other item. -/
def bucketStart (sameAsClicked : Bool) : ℤ :=
  if sameAsClicked then 0 else -1

/-- The dispatcher's reduce over the selected items: partition by variant
into directory paths, file paths, locations and non-indexed rows (labels
and peers contribute nothing), splicing the clicked item at position 0 and
every other item at position -1, while remembering the clicked item's
position in the selection. -/
def partitionSelection (clicked : Option SelItem) (sel : List SelItem) :
    Buckets × ℕ :=
  (sel.enum).foldl
    (fun (acc : Buckets × ℕ) (p : ℕ × SelItem) =>
      let items := acc.1
      let itemIndex := acc.2
      let i := p.1
      let selectedItem := p.2
      let sameAsClicked :=
        match clicked with
        | some c => c.uid = selectedItem.uid
        | none => false
      let itemIndex := if sameAsClicked then i else itemIndex
      match selectedItem.variant with
      | .location loc =>
        ({ items with
           locations :=
             spliceInsert items.locations (bucketStart sameAsClicked) loc },
         itemIndex)
      | .nonIndexedPath p =>
        ({ items with
           non_indexed :=
             spliceInsert items.non_indexed (bucketStart sameAsClicked) p },
         itemIndex)
      | .spacedropPeer => (items, itemIndex)
      | .label _ => (items, itemIndex)
      | .path fp =>
        (if fp.is_dir then
          { items with
            dirs := spliceInsert items.dirs (bucketStart sameAsClicked) fp }
         else
          { items with
            paths := spliceInsert items.paths (bucketStart sameAsClicked) fp },
         itemIndex)
      | .object fps =>
        (fps.foldl
          (fun items fp =>
            if fp.is_dir then
              { items with
                dirs := spliceInsert items.dirs (bucketStart sameAsClicked) fp }
            else
              { items with
                paths :=
                  spliceInsert items.paths (bucketStart sameAsClicked) fp })
          items,
         itemIndex))
    ({ dirs := [], paths := [], locations := [], non_indexed := [] }, 0)

/-- The `openOnDoubleClick` explorer setting. -/
inductive OpenOnDoubleClick where
  | openFile
  | quickPreview
  deriving Repr, DecidableEq

/-- Platform and settings environment of the dispatcher: which platform
open functions exist and what they return when invoked. -/
structure DCCfg where
  openOnDoubleClick : OpenOnDoubleClick
  openFilePathsAvail : Bool
  openEphemeralAvail : Bool
  openFilePathsResult : Except String Unit
  openEphemeralResult : Except String Unit
  libraryId : String

/-- The externally observable dispatches of one `doubleClick` run. -/
inductive DCAction where
  | updateAccessTime (objectIds : List ℤ)
  | openFilePaths (libraryId : String) (ids : List ℤ)
  | openEphemeralFiles (paths : List String)
  | toastError (title : String)
  | openQuickPreview (itemIndex : ℕ)
  | navPath (path : String)
  | navLocation (locId : ℤ) (path : String)
  | navEphemeral (path : String)
  | navLabelSearch (labelId : ℤ)
  deriving Repr, DecidableEq

/-- Whether an action is an "open" dispatch in the sense of the spec's open
dispatcher (a platform open call, a quick-preview open, or a navigation);
the fire-and-forget access-time mutation and the error toast are not. -/
def DCAction.isOpenDispatch : DCAction → Bool
  | .updateAccessTime _ => false
  | .toastError _ => false
  | _ => true

/-- The non-indexed bucket's open branch: with the open-file setting and an
available platform function, open all ephemeral paths externally (catching
failures with a toast) and fall through; otherwise possibly open a quick
preview for the clicked item and stop. -/
def nonIndexedOpen (cfg : DCCfg) (clicked : Option SelItem) (itemIndex : ℕ)
    (items : Buckets) : List DCAction × Bool :=
  if cfg.openOnDoubleClick = .openFile ∧ cfg.openEphemeralAvail then
    ([DCAction.openEphemeralFiles (items.non_indexed.map (fun ni => ni.path))] ++
      (match cfg.openEphemeralResult with
      | .ok _ => []
      | .error _ => [DCAction.toastError "Failed to open file"]),
     false)
  else
    match clicked with
    | some c =>
      if cfg.openOnDoubleClick = .quickPreview ∧ quickPreviewable c then
        ([DCAction.openQuickPreview itemIndex], true)
      else ([], false)
    | none => ([], false)

/-- `useViewItemDoubleClick().doubleClick(item)` as the list of dispatched
actions, translated branch for branch from the source: the file bucket is
handled first (open externally, or open a quick preview and stop), then the
directory bucket navigates and stops, then the location bucket, then the
non-indexed bucket (single-directory navigation stops, otherwise an
external open falls through), and finally a clicked label navigates to a
filtered search. Platform open failures are caught and surface a toast. -/
def doubleClick (cfg : DCCfg) (clicked : Option SelItem)
    (sel : List SelItem) : List DCAction :=
  if sel = [] then []
  else
    let items := (partitionSelection clicked sel).1
    let itemIndex := (partitionSelection clicked sel).2
    let pathsActs :
        List DCAction × Bool :=
      if items.paths ≠ [] then
        if cfg.openOnDoubleClick = .openFile ∧ cfg.openFilePathsAvail then
          ([DCAction.updateAccessTime
              (((items.paths.map (fun fp => fp.object_id)).reduceOption).filter
                (fun o => o ≠ 0)),
            DCAction.openFilePaths cfg.libraryId
              (items.paths.map (fun fp => fp.id))] ++
            (match cfg.openFilePathsResult with
            | .ok _ => []
            | .error _ => [DCAction.toastError "Failed to open file"]),
           false)
        else
          match clicked with
          | some c =>
            if cfg.openOnDoubleClick = .quickPreview ∧ quickPreviewable c then
              ([DCAction.openQuickPreview itemIndex], true)
            else ([], false)
          | none => ([], false)
      else ([], false)
    if pathsActs.2 then pathsActs.1
    else
      let acts := pathsActs.1
      match items.dirs.head? with
      | some d =>
        acts ++ [DCAction.navPath (d.materialized_path ++ d.name ++ "/")]
      | none =>
        match items.locations.head? with
        | some loc => acts ++ [DCAction.navLocation loc.id "/"]
        | none =>
          let nonIndexedActs : List DCAction × Bool :=
            if items.non_indexed ≠ [] then
              match items.non_indexed with
              | [ni] =>
                if ni.is_dir then ([DCAction.navEphemeral ni.path], true)
                else nonIndexedOpen cfg clicked itemIndex items
              | _ => nonIndexedOpen cfg clicked itemIndex items
            else ([], false)
          if nonIndexedActs.2 then acts ++ nonIndexedActs.1
          else
            let acts := acts ++ nonIndexedActs.1
            match clicked with
            | none => acts
            | some c =>
              match c.variant with
              | .label l => acts ++ [DCAction.navLabelSearch l.id]
              | _ => acts

/-- Inserting into an empty bucket lands the single element regardless of
the splice start position. -/
theorem spliceInsert_nil (start : ℤ) (x : α) :
    spliceInsert ([] : List α) start x = [x] := by
  simp [spliceInsert]

/-- A selection holding exactly one directory path dispatches exactly one
navigation to that directory's materialized path, whatever the clicked
item, the settings and the platform functions. -/
theorem dc_single_dir (cfg : DCCfg) (clicked : Option SelItem) (u : ℕ)
    (fp : FilePathRow) (hdir : fp.is_dir = true) :
    doubleClick cfg clicked [⟨u, .path fp⟩] =
      [DCAction.navPath (fp.materialized_path ++ fp.name ++ "/")] := by
  have hpart : partitionSelection clicked [⟨u, .path fp⟩] =
      ({ dirs := [fp], paths := [], locations := [], non_indexed := [] },
       0) := by
    cases clicked with
    | none => simp [partitionSelection, spliceInsert, bucketStart, hdir]
    | some c =>
      by_cases hc : c.uid = u
      · simp [partitionSelection, spliceInsert, bucketStart, hdir, hc]
      · simp [partitionSelection, spliceInsert, bucketStart, hdir, hc]
  simp [doubleClick, hpart]

/-- The files branch does not terminate the dispatcher: with the open-file
setting, a non-empty file bucket and a non-empty directory bucket, both the
platform file-open dispatch and the directory navigation occur. -/
theorem dc_fallthrough (cfg : DCCfg) (clicked : Option SelItem)
    (sel : List SelItem) (d : FilePathRow) (rest : List FilePathRow)
    (hopen : cfg.openOnDoubleClick = .openFile)
    (hav : cfg.openFilePathsAvail = true)
    (hsel : sel ≠ [])
    (hpaths : (partitionSelection clicked sel).1.paths ≠ [])
    (hdirs : (partitionSelection clicked sel).1.dirs = d :: rest) :
    DCAction.openFilePaths cfg.libraryId
        ((partitionSelection clicked sel).1.paths.map (fun fp => fp.id)) ∈
      doubleClick cfg clicked sel ∧
    DCAction.navPath (d.materialized_path ++ d.name ++ "/") ∈
      doubleClick cfg clicked sel := by
  rcases hres : cfg.openFilePathsResult with _ | err <;>
    constructor <;>
    simp [doubleClick, hopen, hav, hres, hdirs, hpaths, if_neg hsel]

/-- A failing platform file-open call is caught and surfaces an error
toast in the dispatched actions. -/
theorem dc_error_toast (cfg : DCCfg) (clicked : Option SelItem)
    (sel : List SelItem) (msg : String)
    (hres : cfg.openFilePathsResult = .error msg)
    (hopen : cfg.openOnDoubleClick = .openFile)
    (hav : cfg.openFilePathsAvail = true)
    (hsel : sel ≠ [])
    (hpaths : (partitionSelection clicked sel).1.paths ≠ []) :
    DCAction.toastError "Failed to open file" ∈
      doubleClick cfg clicked sel := by
  unfold doubleClick
  rw [if_neg hsel]
  simp only [hopen, hav, hres, if_pos hpaths]
  repeat' split
  all_goals simp_all

/-- A failing platform ephemeral-open call is caught and surfaces an error
toast in the dispatched actions. -/
theorem dc_ephemeral_error_toast (cfg : DCCfg) (clicked : Option SelItem)
    (sel : List SelItem) (msg : String) (a b : NonIndexedRow)
    (rest : List NonIndexedRow)
    (hres : cfg.openEphemeralResult = .error msg)
    (hopen : cfg.openOnDoubleClick = .openFile)
    (hav : cfg.openEphemeralAvail = true)
    (hsel : sel ≠ [])
    (hpaths : (partitionSelection clicked sel).1.paths = [])
    (hdirs : (partitionSelection clicked sel).1.dirs = [])
    (hlocs : (partitionSelection clicked sel).1.locations = [])
    (hni : (partitionSelection clicked sel).1.non_indexed = a :: b :: rest) :
    DCAction.toastError "Failed to open file" ∈
      doubleClick cfg clicked sel := by
  unfold doubleClick
  rw [if_neg hsel]
  rcases clicked with _ | c
  · simp [hopen, hav, hres, hpaths, hdirs, hlocs, hni, nonIndexedOpen]
  · rcases hv : c.variant <;>
      simp [hopen, hav, hres, hpaths, hdirs, hlocs, hni, nonIndexedOpen, hv]

/-- An open-file environment: open on double click set to open files, both
platform open functions available and succeeding. -/
def dcCfg : DCCfg :=
  { openOnDoubleClick := .openFile
    openFilePathsAvail := true
    openEphemeralAvail := true
    openFilePathsResult := .ok ()
    openEphemeralResult := .ok ()
    libraryId := "lib" }

/-- An indexed non-directory file path. -/
def fileRowA : FilePathRow :=
  { id := 1, object_id := some 10, is_dir := false
    materialized_path := "/a/", name := "f.txt" }

/-- A second indexed non-directory file path. -/
def fileRowB : FilePathRow :=
  { id := 3, object_id := some 30, is_dir := false
    materialized_path := "/a/", name := "g.txt" }

/-- An indexed directory path. -/
def dirRow : FilePathRow :=
  { id := 2, object_id := some 20, is_dir := true
    materialized_path := "/a/", name := "d" }

/-- The first file as a selected item. -/
def itemFileA : SelItem := { uid := 0, variant := .path fileRowA }

/-- The second file as a selected item. -/
def itemFileB : SelItem := { uid := 1, variant := .path fileRowB }

/-- The directory as a selected item. -/
def itemDir : SelItem := { uid := 2, variant := .path dirRow }

/-- A mixed selection: the clicked file first, another file, a directory. -/
def mixedSel : List SelItem := [itemFileA, itemFileB, itemDir]

/-- C4 counterexample: double-clicking the first file of a selection
holding two files and a directory dispatches two open actions (the
platform file-open and then, falling through, the directory navigation),
not exactly one; and the clicked file does not end up at the front of its
bucket, because items after it are spliced at position -1, in front of the
bucket's last element. -/
theorem open_dispatcher_cex :
    ((doubleClick dcCfg (some itemFileA) mixedSel).filter
        (fun a => a.isOpenDispatch)).length = 2 ∧
    doubleClick dcCfg (some itemFileA) mixedSel =
      [DCAction.updateAccessTime [30, 10],
       DCAction.openFilePaths "lib" [3, 1],
       DCAction.navPath "/a/d/"] ∧
    (partitionSelection (some itemFileA) mixedSel).1.paths.head? ≠
      some fileRowA := by
  decide

/-- C4 amended: the dispatcher partitions the selection into buckets by
variant, splicing the clicked item at position 0 and every other item at
position -1 of its bucket (so the clicked item heads its bucket only when
some other bucket member preceded it); the buckets are consulted in the
priority order files, directories, locations, non-indexed, label, but the
files branch does not return, so a file-open dispatch can be followed by a
navigation dispatch; with a selection of exactly one directory item,
exactly one navigation dispatch to that directory's path occurs and no
file-open call is made. -/
theorem open_dispatcher_amended :
    (∀ (cfg : DCCfg) (clicked : Option SelItem) (u : ℕ) (fp : FilePathRow),
        fp.is_dir = true →
        doubleClick cfg clicked [⟨u, .path fp⟩] =
          [DCAction.navPath (fp.materialized_path ++ fp.name ++ "/")]) ∧
    (∀ (cfg : DCCfg) (clicked : Option SelItem) (sel : List SelItem)
        (d : FilePathRow) (rest : List FilePathRow),
        cfg.openOnDoubleClick = .openFile →
        cfg.openFilePathsAvail = true →
        sel ≠ [] →
        (partitionSelection clicked sel).1.paths ≠ [] →
        (partitionSelection clicked sel).1.dirs = d :: rest →
        DCAction.openFilePaths cfg.libraryId
            ((partitionSelection clicked sel).1.paths.map (fun fp => fp.id))
          ∈ doubleClick cfg clicked sel ∧
        DCAction.navPath (d.materialized_path ++ d.name ++ "/") ∈
          doubleClick cfg clicked sel) :=
  ⟨fun cfg clicked u fp hdir => dc_single_dir cfg clicked u fp hdir,
   fun cfg clicked sel d rest hopen hav hsel hpaths hdirs =>
     dc_fallthrough cfg clicked sel d rest hopen hav hsel hpaths hdirs⟩

/-- Witness for C4's amended theorem: a selection of exactly the directory
dispatches only its navigation, and the mixed selection dispatches both the
file-open and the directory navigation. -/
theorem open_dispatcher_amended_witness :
    doubleClick dcCfg (some itemDir) [itemDir] =
      [DCAction.navPath "/a/d/"] ∧
    DCAction.openFilePaths "lib" [3, 1] ∈
      doubleClick dcCfg (some itemFileA) mixedSel ∧
    DCAction.navPath "/a/d/" ∈ doubleClick dcCfg (some itemFileA) mixedSel :=
  ⟨open_dispatcher_amended.1 dcCfg (some itemDir) 2 dirRow rfl,
   (open_dispatcher_amended.2 dcCfg (some itemFileA) mixedSel dirRow []
      rfl rfl (by decide) (by decide) (by decide)).1,
   (open_dispatcher_amended.2 dcCfg (some itemFileA) mixedSel dirRow []
      rfl rfl (by decide) (by decide) (by decide)).2⟩

/-- One double-click dispatch over the grid state: the dispatcher reads the
selection but calls no selection mutator in the source, so the grid state
passes through unchanged next to the dispatched actions. -/
def dcStep (cfg : DCCfg) (clicked : Option SelItem) (sel : List SelItem)
    (gs : SpacedriveGrid.GridState) :
    SpacedriveGrid.GridState × List DCAction :=
  (gs, doubleClick cfg clicked sel)

/-- C9: when a platform open call fails (opening file paths or ephemeral
paths), the failure is caught locally and surfaces as an error toast among
the dispatched actions, the grid selection state is unchanged, and later
dispatches (such as a directory navigation) still occur. -/
theorem platform_open_failure_recovered :
    (∀ (cfg : DCCfg) (clicked : Option SelItem) (sel : List SelItem)
        (gs : SpacedriveGrid.GridState) (msg : String),
        cfg.openFilePathsResult = .error msg →
        cfg.openOnDoubleClick = .openFile →
        cfg.openFilePathsAvail = true →
        sel ≠ [] →
        (partitionSelection clicked sel).1.paths ≠ [] →
        (dcStep cfg clicked sel gs).1 = gs ∧
        DCAction.toastError "Failed to open file" ∈
          (dcStep cfg clicked sel gs).2) ∧
    (∀ (cfg : DCCfg) (clicked : Option SelItem) (sel : List SelItem)
        (d : FilePathRow) (rest : List FilePathRow) (msg : String),
        cfg.openFilePathsResult = .error msg →
        cfg.openOnDoubleClick = .openFile →
        cfg.openFilePathsAvail = true →
        sel ≠ [] →
        (partitionSelection clicked sel).1.paths ≠ [] →
        (partitionSelection clicked sel).1.dirs = d :: rest →
        DCAction.navPath (d.materialized_path ++ d.name ++ "/") ∈
          doubleClick cfg clicked sel) ∧
    (∀ (cfg : DCCfg) (clicked : Option SelItem) (sel : List SelItem)
        (gs : SpacedriveGrid.GridState) (msg : String)
        (a b : NonIndexedRow) (rest : List NonIndexedRow),
        cfg.openEphemeralResult = .error msg →
        cfg.openOnDoubleClick = .openFile →
        cfg.openEphemeralAvail = true →
        sel ≠ [] →
        (partitionSelection clicked sel).1.paths = [] →
        (partitionSelection clicked sel).1.dirs = [] →
        (partitionSelection clicked sel).1.locations = [] →
        (partitionSelection clicked sel).1.non_indexed = a :: b :: rest →
        (dcStep cfg clicked sel gs).1 = gs ∧
        DCAction.toastError "Failed to open file" ∈
          (dcStep cfg clicked sel gs).2) :=
  ⟨fun cfg clicked sel _gs msg hres hopen hav hsel hpaths =>
     ⟨rfl, dc_error_toast cfg clicked sel msg hres hopen hav hsel hpaths⟩,
   fun cfg clicked sel d rest _msg _ hopen hav hsel hpaths hdirs =>
     (dc_fallthrough cfg clicked sel d rest hopen hav hsel hpaths hdirs).2,
   fun cfg clicked sel _gs msg a b rest hres hopen hav hsel hpaths hdirs
       hlocs hni =>
     ⟨rfl, dc_ephemeral_error_toast cfg clicked sel msg a b rest hres hopen
        hav hsel hpaths hdirs hlocs hni⟩⟩

/-- The open-file environment with a failing platform file-open call. -/
def dcCfgErr : DCCfg := { dcCfg with openFilePathsResult := .error "boom" }

/-- The open-file environment with a failing ephemeral-open call. -/
def dcCfgEphErr : DCCfg :=
  { dcCfg with openEphemeralResult := .error "boom" }

/-- A non-indexed file row. -/
def niRowA : NonIndexedRow := { path := "/tmp/x", is_dir := false }

/-- A second non-indexed file row. -/
def niRowB : NonIndexedRow := { path := "/tmp/y", is_dir := false }

/-- The first non-indexed row as a selected item. -/
def itemNiA : SelItem := { uid := 5, variant := .nonIndexedPath niRowA }

/-- The second non-indexed row as a selected item. -/
def itemNiB : SelItem := { uid := 6, variant := .nonIndexedPath niRowB }

/-- A selection of the two non-indexed rows. -/
def ephSel : List SelItem := [itemNiA, itemNiB]

/-- Witness for C9: failing platform calls toast while the state passes
through unchanged and the directory navigation still occurs. -/
theorem platform_open_failure_recovered_witness :
    (dcStep dcCfgErr (some itemFileA) mixedSel
        SpacedriveGrid.initState).1 = SpacedriveGrid.initState ∧
    DCAction.toastError "Failed to open file" ∈
      (dcStep dcCfgErr (some itemFileA) mixedSel
        SpacedriveGrid.initState).2 ∧
    DCAction.navPath "/a/d/" ∈
      doubleClick dcCfgErr (some itemFileA) mixedSel ∧
    DCAction.toastError "Failed to open file" ∈
      (dcStep dcCfgEphErr none ephSel SpacedriveGrid.initState).2 :=
  ⟨(platform_open_failure_recovered.1 dcCfgErr (some itemFileA) mixedSel
      SpacedriveGrid.initState "boom" rfl rfl rfl (by decide) (by decide)).1,
   (platform_open_failure_recovered.1 dcCfgErr (some itemFileA) mixedSel
      SpacedriveGrid.initState "boom" rfl rfl rfl (by decide) (by decide)).2,
   platform_open_failure_recovered.2.1 dcCfgErr (some itemFileA) mixedSel
     dirRow [] "boom" rfl rfl rfl (by decide) (by decide) (by decide),
   (platform_open_failure_recovered.2.2 dcCfgEphErr none ephSel
      SpacedriveGrid.initState "boom" niRowB niRowA [] rfl rfl rfl
      (by decide) (by decide) (by decide) (by decide) (by decide)).2⟩

end SpacedriveOpen

namespace SpacedriveGrid

/-- A 4-column grid of 24 items (6 rows) whose virtualizer currently mounts
only the rows from index 16 on: rows 0-3 are unmounted. -/
def cfgFourCol : GridCfg :=
  { selectable := true
    allowMultiSelect := true
    itemsLen := 24
    cc := 4
    mounted := fun i => decide (16 ≤ i)
    quickPreviewOpen := false
    anyDialogOpen := false
    itemHeight := 100
    itemWidth := 100
    gapY := 10
    gapX := 10
    padY := 10
    padX := 10 }

/-- The mounted element of item 17 (row 4, column 1) of `cfgFourCol`. -/
def elItem17 : Element :=
  { index := 17, mounted := true, domRect := gridItemRect cfgFourCol 17 }

/-- A downward single-column drag tick: the marquee was started inside row 1
of column 1 (at y = 130) and has been dragged down to y = 500, so that rows
1-3 of column 1 are swept but only the element of item 17 (row 4) is
mounted and hit-tested. -/
def evRowSweep : SelEvent :=
  { added := [elItem17]
    removed := []
    rect := { top := 130, bottom := 500, left := 150, right := 160 }
    px := 160
    py := 500
    shift := false }

/-- C1: during a single-column marquee drag whose leading edge has crossed
past the nearest visible item, the controller computes the unmounted
row-slot count as `(dragHeight - rowGap) / (rowHeight + rowGap)`, ceiled
when the quotient exceeds 1 and rounded to nearest otherwise; the synthesis
loop visits exactly the indices `firstItem.index ± n * columnCount` for
`n = 1 .. itemsInDragCount`; and a drag sweeping rows 2-5 of column 1 in a
4-column grid selects exactly the items at indices 5, 9, 13 and 17 even
though rows 1-3 were never mounted. -/
theorem marquee_single_column_synthesis :
    (∀ dh g h : ℚ, 1 < (dh - g) / (h + g) →
        itemsInDragCount dh g h = ⌈(dh - g) / (h + g)⌉) ∧
    (∀ dh g h : ℚ, ¬ 1 < (dh - g) / (h + g) →
        itemsInDragCount dh g h = ⌊(dh - g) / (h + g) + 1 / 2⌋) ∧
    (∀ (count : ℕ) (down : Bool) (firstIndex cc : ℕ) (j : ℤ),
        j ∈ synthIndexList count down firstIndex cc ↔
          ∃ n : ℕ, 1 ≤ n ∧ n ≤ count ∧
            j = (firstIndex : ℤ) + (if down then -(n : ℤ) else (n : ℤ)) * cc) ∧
    (mousemoveTick cfgFourCol 0 evRowSweep initState).sel = {5, 9, 13, 17} := by
  refine ⟨?_, ?_, ?_, ?_⟩
  · intro dh g h hq
    simp [itemsInDragCount, if_pos hq]
  · intro dh g h hq
    simp [itemsInDragCount, mathRound, if_neg hq]
  · intro count down firstIndex cc j
    unfold synthIndexList
    rw [List.mem_map]
    cases down
    · simp only [Bool.false_eq_true, if_false, List.mem_range]
      constructor
      · rintro ⟨i, hi, rfl⟩
        refine ⟨i + 1, by omega, by omega, ?_⟩
        push_cast
        ring
      · rintro ⟨n, h1, h2, rfl⟩
        refine ⟨n - 1, by omega, ?_⟩
        rw [show ((n - 1 : ℕ) : ℤ) + 1 = (n : ℤ) by omega]
    · simp only [eq_self_iff_true, if_true, List.mem_range]
      constructor
      · rintro ⟨i, hi, rfl⟩
        refine ⟨count - i, by omega, by omega, ?_⟩
        rw [show ((count : ℕ) : ℤ) - (i : ℤ) = ((count - i : ℕ) : ℤ) by omega]
      · rintro ⟨n, h1, h2, rfl⟩
        refine ⟨count - n, by omega, ?_⟩
        rw [show ((count : ℕ) : ℤ) - ((count - n : ℕ) : ℤ) = (n : ℤ) by omega]
  · have hceil : ⌈(31 : ℚ) / 11⌉ = 3 := by
      rw [Int.ceil_eq_iff]
      constructor <;> norm_num
    norm_num [mousemoveTick, cfgFourCol, evRowSweep, elItem17, initState,
      getElementItem, getItem, gridItemRect, jsSetInsert, sortByKey,
      insertByKey, finishTick, applySynthItem, synthIndexList,
      itemsInDragCount, mathRound, hceil]
    decide

/-- Witness for C1: the rounding rule, the synthesized index arithmetic and
the row-sweep scenario, each at concrete inputs. -/
theorem marquee_single_column_synthesis_witness :
    itemsInDragCount 320 10 100 = ⌈((320 : ℚ) - 10) / ((100 : ℚ) + 10)⌉ ∧
    itemsInDragCount 50 10 100 = ⌊((50 : ℚ) - 10) / ((100 : ℚ) + 10) + 1 / 2⌋ ∧
    (13 : ℤ) ∈ synthIndexList 3 true 17 4 ∧
    (mousemoveTick cfgFourCol 0 evRowSweep initState).sel = {5, 9, 13, 17} :=
  ⟨marquee_single_column_synthesis.1 320 10 100 (by norm_num),
   marquee_single_column_synthesis.2.1 50 10 100 (by norm_num),
   (marquee_single_column_synthesis.2.2.1 3 true 17 4 13).mpr
     ⟨1, by norm_num, by norm_num, by norm_num⟩,
   marquee_single_column_synthesis.2.2.2⟩

/-- A fully mounted 5-column grid of 20 items. -/
def cfgFiveCol : GridCfg :=
  { selectable := true
    allowMultiSelect := true
    itemsLen := 20
    cc := 5
    mounted := fun _ => true
    quickPreviewOpen := false
    anyDialogOpen := false
    itemHeight := 100
    itemWidth := 100
    gapY := 10
    gapX := 10
    padY := 10
    padX := 10 }

/-- Selection and anchor at index 5 (column 0 of row 1). -/
def stateSel5 : GridState := { initState with sel := {5}, anchor := some 5 }

/-- Selection and anchor at index 0. -/
def stateSel0 : GridState := { initState with sel := {0}, anchor := some 0 }

/-- C2 counterexample: with 20 items in 5 columns, anchor and selection at
index 5 — column 0 of its row — the left-arrow keypress does not leave the
selection unchanged: the computed newIndex 4 is the last item of the
previous row, which exists, so the selection becomes item 4. -/
theorem keyboard_left_column0_cex :
    (5 : ℕ) % cfgFiveCol.cc = 0 ∧
    (explorerLeftShortcut cfgFiveCol false stateSel5).sel = {4} ∧
    ¬ (explorerLeftShortcut cfgFiveCol false stateSel5).sel = stateSel5.sel
    := by
  decide

/-- C2 amended: an arrow keypress whose computed newIndex has no
corresponding item in the collection is a no-op with no wraparound, and
the left arrow is a no-op when the active anchor is at index 0; at column 0
of any later row, however, newIndex = anchor - 1 exists (the last item of
the previous row) and the keypress moves the selection there. -/
theorem keyboard_no_item_noop :
    (∀ (cfg : GridCfg) (shift : Bool) (newIndex : ℤ) (s : GridState),
        getItem cfg newIndex = none →
        keyboardHandler cfg shift newIndex s = s) ∧
    (∀ (cfg : GridCfg) (shift : Bool) (s : GridState),
        s.anchor = some 0 → explorerLeftShortcut cfg shift s = s) := by
  constructor
  · intro cfg shift newIndex s h
    simp [keyboardHandler, h]
  · intro cfg shift s h
    have hnone : getItem cfg (-1) = none := by simp [getItem]
    have hkb : keyboardHandler cfg shift (-1) s = s := by
      simp [keyboardHandler, hnone]
    by_cases hlen : 0 < cfg.itemsLen
    · have hg : getGridItemHandler cfg s .left = some (-1) := by
        simp [getGridItemHandler, h, getItem, hlen]
      simp [explorerLeftShortcut, hg, hkb]
    · have hg : getGridItemHandler cfg s .left = none := by
        simp [getGridItemHandler, h, hlen]
      simp [explorerLeftShortcut, hg]

/-- Witness for C2's amended theorem: index 20 is outside the 20-item
collection so the keypress is a no-op, and the left arrow at anchor 0 is a
no-op. -/
theorem keyboard_no_item_noop_witness :
    keyboardHandler cfgFiveCol false 20 stateSel5 = stateSel5 ∧
    explorerLeftShortcut cfgFiveCol false stateSel0 = stateSel0 :=
  ⟨keyboard_no_item_noop.1 cfgFiveCol false 20 stateSel5 (by decide),
   keyboard_no_item_noop.2 cfgFiveCol false stateSel0 (by decide)⟩

/-- The 5-column grid with the quick-preview modal open. -/
def cfgFiveColQP : GridCfg := { cfgFiveCol with quickPreviewOpen := true }

/-- Selection and anchor at index 3. -/
def stateSel3 : GridState := { initState with sel := {3}, anchor := some 3 }

/-- C3 counterexample: with the quick-preview modal open, multi-select
enabled, selection and anchor at item 3, shift+ArrowRight does not leave
the selection unchanged at 3: the handler takes the non-extending branch
and replaces the selection with item 4. -/
theorem quickpreview_shift_cex :
    cfgFiveColQP.quickPreviewOpen = true ∧
    (explorerRightShortcut cfgFiveColQP true stateSel3).sel = {4} ∧
    (explorerRightShortcut cfgFiveColQP true stateSel3).anchor = some 4 ∧
    ¬ (explorerRightShortcut cfgFiveColQP true stateSel3).sel = {3} := by
  decide

/-- C3 amended: while the quick-preview modal is open, a shift+arrow
keypress does not extend the selection, but it is not a no-op either: for a
mounted target item it behaves like an unshifted arrow, replacing the
selection with the target item and moving the anchor to it. -/
theorem quickpreview_shift_replaces (cfg : GridCfg) (shift : Bool)
    (ni : ℤ) (s : GridState) (it : GridItem)
    (hsel : cfg.selectable = true) (hqp : cfg.quickPreviewOpen = true)
    (hmulti : cfg.allowMultiSelect = true) (hit : getItem cfg ni = some it)
    (hm : cfg.mounted it.index = true) :
    keyboardHandler cfg shift ni s =
      { s with
        sel := {it.index}
        selectoTargets := [it.index]
        selectoUnselected := ∅
        anchor := some it.index } := by
  simp [keyboardHandler, hsel, hqp, hmulti, hit, hm]

/-- Witness for C3's amended theorem: shift+ArrowRight onto item 4 with the
quick-preview open replaces the selection with item 4. -/
theorem quickpreview_shift_replaces_witness :
    keyboardHandler cfgFiveColQP true 4 stateSel3 =
      { stateSel3 with
        sel := {4}
        selectoTargets := [4]
        selectoUnselected := ∅
        anchor := some 4 } :=
  quickpreview_shift_replaces cfgFiveColQP true 4 stateSel3
    { index := 4, row := 0, column := 4, rect := gridItemRect cfgFiveColQP 4 }
    rfl rfl rfl rfl rfl

/-- Invariant of the `getActiveItem` fold: a produced item either was the
accumulator or resolves from the list, it is no larger than any accumulator
item, and it is no larger than any item resolved from the list. -/
theorem activeFold_spec (cfg : GridCfg) (els : List Element) :
    ∀ (acc : Option GridItem) (it : GridItem),
      els.foldl (activeReduce cfg) acc = some it →
      (acc = some it ∨ ∃ e ∈ els, getElementItem cfg e = some it) ∧
      (∀ l, acc = some l → it.index ≤ l.index) ∧
      (∀ e ∈ els, ∀ it2, getElementItem cfg e = some it2 →
          it.index ≤ it2.index) := by
  induction els with
  | nil =>
    intro acc it h
    rw [List.foldl_nil] at h
    refine ⟨Or.inl h, ?_, ?_⟩
    · intro l hl
      rw [hl] at h
      injection h with h
      rw [h]
    · intro e he
      simp at he
  | cons e es ih =>
    intro acc it h
    rw [List.foldl_cons] at h
    obtain ⟨h1, h2, h3⟩ := ih (activeReduce cfg acc e) it h
    cases hge : getElementItem cfg e with
    | none =>
      have hred : activeReduce cfg acc e = acc := by simp [activeReduce, hge]
      rw [hred] at h1 h2
      refine ⟨?_, h2, ?_⟩
      · rcases h1 with h1 | ⟨e', he', hx⟩
        · exact Or.inl h1
        · exact Or.inr ⟨e', List.mem_cons_of_mem _ he', hx⟩
      · intro e' he' it2 hit2
        rcases List.mem_cons.mp he' with rfl | he'
        · rw [hge] at hit2
          exact absurd hit2 (by simp)
        · exact h3 e' he' it2 hit2
    | some x =>
      cases acc with
      | none =>
        have hred : activeReduce cfg none e = some x := by
          simp [activeReduce, hge]
        rw [hred] at h1 h2
        have hle_x : it.index ≤ x.index := h2 x rfl
        refine ⟨?_, ?_, ?_⟩
        · rcases h1 with h1 | ⟨e', he', hx⟩
          · injection h1 with h1
            subst h1
            exact Or.inr ⟨e, List.mem_cons_self e es, hge⟩
          · exact Or.inr ⟨e', List.mem_cons_of_mem _ he', hx⟩
        · intro l hl
          exact absurd hl (by simp)
        · intro e' he' it2 hit2
          rcases List.mem_cons.mp he' with rfl | he'
          · rw [hge] at hit2
            injection hit2 with hit2
            rw [← hit2]
            exact hle_x
          · exact h3 e' he' it2 hit2
      | some l =>
        by_cases hlt : x.index < l.index
        · have hred : activeReduce cfg (some l) e = some x := by
            simp [activeReduce, hge, hlt]
          rw [hred] at h1 h2
          have hle_x : it.index ≤ x.index := h2 x rfl
          refine ⟨?_, ?_, ?_⟩
          · rcases h1 with h1 | ⟨e', he', hx⟩
            · injection h1 with h1
              subst h1
              exact Or.inr ⟨e, List.mem_cons_self e es, hge⟩
            · exact Or.inr ⟨e', List.mem_cons_of_mem _ he', hx⟩
          · intro l' hl'
            injection hl' with hl'
            subst hl'
            exact le_trans hle_x (le_of_lt hlt)
          · intro e' he' it2 hit2
            rcases List.mem_cons.mp he' with rfl | he'
            · rw [hge] at hit2
              injection hit2 with hit2
              rw [← hit2]
              exact hle_x
            · exact h3 e' he' it2 hit2
        · have hred : activeReduce cfg (some l) e = some l := by
            simp [activeReduce, hge, hlt]
          rw [hred] at h1 h2
          have hle_l : it.index ≤ l.index := h2 l rfl
          refine ⟨?_, ?_, ?_⟩
          · rcases h1 with h1 | ⟨e', he', hx⟩
            · exact Or.inl h1
            · exact Or.inr ⟨e', List.mem_cons_of_mem _ he', hx⟩
          · intro l' hl'
            injection hl' with hl'
            subst hl'
            exact hle_l
          · intro e' he' it2 hit2
            rcases List.mem_cons.mp he' with rfl | he'
            · rw [hge] at hit2
              injection hit2 with hit2
              rw [← hit2]
              exact le_trans hle_l (not_lt.mp hlt)
            · exact h3 e' he' it2 hit2

/-- C5: on drag end the drag-selecting flag, the first/last touched column
trackers and the drag-from-thumbnail flag are cleared, and the active
anchor becomes the selected target with the smallest grid index among the
(widget-tracked) selected targets — ties are impossible since grid indices
are unique per element index. -/
theorem drag_end_clears_and_anchors_min :
    (∀ (cfg : GridCfg) (els : List Element) (s : GridState),
        (handleDragEnd cfg els s).isDragSelecting = false ∧
        (handleDragEnd cfg els s).firstCol = none ∧
        (handleDragEnd cfg els s).lastCol = none ∧
        (handleDragEnd cfg els s).dragFromThumbnail = false ∧
        (handleDragEnd cfg els s).anchor =
          (getActiveItem cfg els).map (fun it => it.index)) ∧
    (∀ (cfg : GridCfg) (els : List Element) (it : GridItem),
        getActiveItem cfg els = some it →
        (∃ e ∈ els, getElementItem cfg e = some it) ∧
        ∀ e ∈ els, ∀ it2, getElementItem cfg e = some it2 →
          it.index ≤ it2.index) := by
  constructor
  · intro cfg els s
    exact ⟨rfl, rfl, rfl, rfl, rfl⟩
  · intro cfg els it h
    obtain ⟨h1, _, h3⟩ := activeFold_spec cfg els none it h
    refine ⟨?_, h3⟩
    rcases h1 with h1 | h1
    · exact absurd h1 (by simp)
    · exact h1

/-- A mounted element for item 9 of the 5-column grid. -/
def elNine : Element :=
  { index := 9, mounted := true, domRect := gridItemRect cfgFiveCol 9 }

/-- A mounted element for item 4 of the 5-column grid. -/
def elFour : Element :=
  { index := 4, mounted := true, domRect := gridItemRect cfgFiveCol 4 }

/-- Two selected targets, listed with the larger index first. -/
def dragEls : List Element := [elNine, elFour]

/-- The grid item at index 4 of the 5-column grid. -/
def itemFour : GridItem :=
  { index := 4, row := 0, column := 4, rect := gridItemRect cfgFiveCol 4 }

/-- The grid item at index 9 of the 5-column grid. -/
def itemNine : GridItem :=
  { index := 9, row := 1, column := 4, rect := gridItemRect cfgFiveCol 9 }

/-- Witness for C5: with selected targets at indices 9 and 4, drag end
anchors at index 4 and clears the column tracker, and 4 is no larger than
the other target's index. -/
theorem drag_end_clears_and_anchors_min_witness :
    (handleDragEnd cfgFiveCol dragEls stateSel5).anchor = some 4 ∧
    (handleDragEnd cfgFiveCol dragEls stateSel5).firstCol = none ∧
    itemFour.index ≤ itemNine.index :=
  ⟨((drag_end_clears_and_anchors_min.1 cfgFiveCol dragEls
      stateSel5).2.2.2.2).trans rfl,
   (drag_end_clears_and_anchors_min.1 cfgFiveCol dragEls stateSel5).2.1,
   (drag_end_clears_and_anchors_min.2 cfgFiveCol dragEls itemFour rfl).2
     elNine (by simp [dragEls]) itemNine rfl⟩

/-- Selection and anchor at index 7. -/
def stateSel7 : GridState := { initState with sel := {7}, anchor := some 7 }

/-- C6: an arrow keypress without shift (or with multi-select disabled, for
a mounted target when multi-select is enabled) replaces the selection with
exactly the item at the computed newIndex and anchors it; in particular
ArrowDown from index 7 of a 20-item 5-column grid yields selection 12 with
anchor 12. -/
theorem arrow_replaces_selection :
    (∀ (cfg : GridCfg) (ni : ℤ) (s : GridState) (it : GridItem),
        cfg.selectable = true → getItem cfg ni = some it →
        (cfg.allowMultiSelect = false ∨ cfg.mounted it.index = true) →
        (keyboardHandler cfg false ni s).sel = {it.index} ∧
        (keyboardHandler cfg false ni s).anchor = some it.index) ∧
    ((explorerDownShortcut cfgFiveCol false stateSel7).sel = {12} ∧
     (explorerDownShortcut cfgFiveCol false stateSel7).anchor = some 12) := by
  constructor
  · intro cfg ni s it hsel hit hcase
    rcases hcase with hm | hm
    · constructor <;> simp [keyboardHandler, hsel, hit, hm]
    · by_cases hms : cfg.allowMultiSelect = true
      · constructor <;> simp [keyboardHandler, hsel, hit, hm, hms]
      · constructor <;> simp [keyboardHandler, hsel, hit, hms]
  · decide

/-- Witness for C6: ArrowDown's newIndex 12 replaces the selection. -/
theorem arrow_replaces_selection_witness :
    (keyboardHandler cfgFiveCol false 12 stateSel7).sel = {12} ∧
    (keyboardHandler cfgFiveCol false 12 stateSel7).anchor = some 12 :=
  arrow_replaces_selection.1 cfgFiveCol 12 stateSel7
    { index := 12, row := 2, column := 2, rect := gridItemRect cfgFiveCol 12 }
    rfl rfl (Or.inr rfl)

/-- A user-level selection-mutating operation on the grid view. -/
inductive GridOp where
  | arrow (key : ArrowKey) (shift : Bool)
  | mouse (button : ℕ) (index : ℕ)
  | esc

/-- Dispatch one operation to its handler. -/
def stepOp (cfg : GridCfg) (s : GridState) : GridOp → GridState
  | .arrow .up shift => explorerUpShortcut cfg shift s
  | .arrow .down shift => explorerDownShortcut cfg shift s
  | .arrow .left shift => explorerLeftShortcut cfg shift s
  | .arrow .right shift => explorerRightShortcut cfg shift s
  | .mouse button index => gridItemMouseDown cfg button index s
  | .esc => escapeShortcut cfg s

/-- Run a sequence of operations. -/
def runOps (cfg : GridCfg) (s : GridState) (ops : List GridOp) : GridState :=
  ops.foldl (stepOp cfg) s

/-- With multi-select disabled, the keyboard handler keeps the selection at
size at most one. -/
theorem keyboardHandler_card_single (cfg : GridCfg) (sh : Bool) (ni : ℤ)
    (s : GridState) (hm : cfg.allowMultiSelect = false)
    (hs : s.sel.card ≤ 1) : (keyboardHandler cfg sh ni s).sel.card ≤ 1 := by
  unfold keyboardHandler
  split
  · exact hs
  · split
    · exact hs
    · simp [hm]

/-- With multi-select disabled, every single operation keeps the selection
at size at most one. -/
theorem stepOp_card_single (cfg : GridCfg) (op : GridOp) (s : GridState)
    (hm : cfg.allowMultiSelect = false) (hs : s.sel.card ≤ 1) :
    (stepOp cfg s op).sel.card ≤ 1 := by
  cases op with
  | arrow key shift =>
    cases key with
    | up =>
      simp only [stepOp]
      unfold explorerUpShortcut
      repeat' split
      all_goals
        first
        | exact hs
        | exact keyboardHandler_card_single cfg _ _ _ hm hs
    | down =>
      simp only [stepOp]
      unfold explorerDownShortcut
      repeat' split
      all_goals
        first
        | exact hs
        | exact keyboardHandler_card_single cfg _ _ _ hm hs
        | simp [hm]
    | left =>
      simp only [stepOp]
      unfold explorerLeftShortcut
      repeat' split
      all_goals
        first
        | exact hs
        | exact keyboardHandler_card_single cfg _ _ _ hm hs
    | right =>
      simp only [stepOp]
      unfold explorerRightShortcut
      repeat' split
      all_goals
        first
        | exact hs
        | exact keyboardHandler_card_single cfg _ _ _ hm hs
  | mouse button index =>
    simp only [stepOp]
    unfold gridItemMouseDown
    repeat' split
    all_goals first | exact hs | simp [hm]
  | esc =>
    simp only [stepOp]
    unfold escapeShortcut
    split
    · exact hs
    · simp

/-- With multi-select disabled, any operation sequence keeps the selection
at size at most one. -/
theorem runOps_card_single (cfg : GridCfg) (ops : List GridOp) :
    ∀ s : GridState, cfg.allowMultiSelect = false → s.sel.card ≤ 1 →
      (runOps cfg s ops).sel.card ≤ 1 := by
  induction ops with
  | nil =>
    intro s _ hs
    exact hs
  | cons op ops ih =>
    intro s hm hs
    exact ih (stepOp cfg s op) hm (stepOp_card_single cfg op s hm hs)

/-- C7: when multi-select is disabled, after any sequence of
selection-mutating operations the Selection Set has size at most one, and a
mouse-down selection operation selects exactly the targeted item. -/
theorem single_select_invariant :
    (∀ (cfg : GridCfg) (ops : List GridOp) (s : GridState),
        cfg.allowMultiSelect = false → s.sel.card ≤ 1 →
        (runOps cfg s ops).sel.card ≤ 1) ∧
    (∀ (cfg : GridCfg) (i : ℕ) (s : GridState) (it : GridItem),
        cfg.allowMultiSelect = false → cfg.selectable = true →
        getItem cfg (i : ℤ) = some it →
        (gridItemMouseDown cfg 0 i s).sel = {it.index} ∧
        (gridItemMouseDown cfg 0 i s).anchor = some it.index) := by
  constructor
  · intro cfg ops s hm hs
    exact runOps_card_single cfg ops s hm hs
  · intro cfg i s it hm hsel hit
    constructor <;> simp [gridItemMouseDown, hsel, hit, hm]

/-- The 5-column grid in single-select mode. -/
def cfgSingle : GridCfg := { cfgFiveCol with allowMultiSelect := false }

/-- A demonstration operation sequence. -/
def demoOps : List GridOp :=
  [.arrow .down false, .mouse 0 3, .arrow .right false, .esc,
   .arrow .down false]

/-- Witness for C7: the demonstration sequence keeps the selection at size
at most one, and a primary-button mouse-down on item 3 selects exactly
item 3. -/
theorem single_select_invariant_witness :
    (runOps cfgSingle initState demoOps).sel.card ≤ 1 ∧
    (gridItemMouseDown cfgSingle 0 3 initState).sel = {3} :=
  ⟨single_select_invariant.1 cfgSingle demoOps initState rfl (by decide),
   (single_select_invariant.2 cfgSingle 3 initState
      { index := 3, row := 0, column := 3, rect := gridItemRect cfgSingle 3 }
      rfl rfl rfl).1⟩

/-- C8: from any non-empty selection with the view selectable, the escape
shortcut empties the Selection Set and clears the Selecto widget's targets,
and the selection-emptied effect then clears the active anchor and the
unselected-shadow set. -/
theorem escape_clears_selection (cfg : GridCfg) (s : GridState)
    (hsel : cfg.selectable = true) (hne : s.sel ≠ ∅) :
    (effectClearOnEmpty (escapeShortcut cfg s)).sel = ∅ ∧
    (effectClearOnEmpty (escapeShortcut cfg s)).anchor = none ∧
    (effectClearOnEmpty (escapeShortcut cfg s)).selectoTargets = [] ∧
    (effectClearOnEmpty (escapeShortcut cfg s)).selectoUnselected = ∅ := by
  simp [escapeShortcut, effectClearOnEmpty, hsel, hne]

/-- Witness for C8: escape from selection at index 3. -/
theorem escape_clears_selection_witness :
    (effectClearOnEmpty (escapeShortcut cfgFiveCol stateSel3)).sel = ∅ ∧
    (effectClearOnEmpty (escapeShortcut cfgFiveCol stateSel3)).anchor =
      none ∧
    (effectClearOnEmpty (escapeShortcut cfgFiveCol stateSel3)).selectoTargets
      = [] ∧
    (effectClearOnEmpty
        (escapeShortcut cfgFiveCol stateSel3)).selectoUnselected = ∅ :=
  escape_clears_selection cfgFiveCol stateSel3 rfl (by decide)

/-- C10: in multi-select mode, a keyboard navigation keypress whose target
item exists but whose DOM element is unmounted is a silent no-op, and so is
the ArrowDown bootstrap of an empty selection when the element of index 0
is unmounted. -/
theorem unmounted_target_noop :
    (∀ (cfg : GridCfg) (shift : Bool) (ni : ℤ) (s : GridState)
        (it : GridItem),
        cfg.allowMultiSelect = true → getItem cfg ni = some it →
        cfg.mounted it.index = false →
        keyboardHandler cfg shift ni s = s) ∧
    (∀ (cfg : GridCfg) (shift : Bool) (s : GridState) (it : GridItem),
        cfg.selectable = true → cfg.anyDialogOpen = false →
        s.sel = ∅ → getItem cfg 0 = some it →
        cfg.mounted it.index = false →
        explorerDownShortcut cfg shift s = s) := by
  constructor
  · intro cfg shift ni s it hmulti hit hm
    by_cases hsel : cfg.selectable = true
    · simp [keyboardHandler, hsel, hit, hmulti, hm]
    · simp [keyboardHandler, hsel]
  · intro cfg shift s it hsel hd hempty hit hm
    simp [explorerDownShortcut, hsel, hd, hempty, hit, hm]

/-- The 5-column grid with every element unmounted. -/
def cfgUnmounted : GridCfg := { cfgFiveCol with mounted := fun _ => false }

/-- Witness for C10: with all elements unmounted, ArrowDown's target 12 is
a no-op from selection 7, and the bootstrap from an empty selection is a
no-op. -/
theorem unmounted_target_noop_witness :
    keyboardHandler cfgUnmounted false 12 stateSel7 = stateSel7 ∧
    explorerDownShortcut cfgUnmounted false initState = initState :=
  ⟨unmounted_target_noop.1 cfgUnmounted false 12 stateSel7
    { index := 12, row := 2, column := 2, rect := gridItemRect cfgUnmounted 12 }
    rfl rfl rfl,
   unmounted_target_noop.2 cfgUnmounted false initState
    { index := 0, row := 0, column := 0, rect := gridItemRect cfgUnmounted 0 }
    rfl rfl rfl rfl rfl⟩

end SpacedriveGrid
